import Mathlib

/-!
Verification of the MCP Medusa server's JSON-RPC dispatch, tool registry and
authentication layers.

The development shallowly embeds the JavaScript modules that carry the
protocol logic:

* `src/lib/jsonrpc.js`  — JSON-RPC envelope construction and request parsing;
* `src/lib/tools.js`    — tool discovery with a TTL cache, the MCP-shape
  projection with its memo cache, and the validated tool executor;
* `src/api/mcp/index.js` — the serverless request handler (`handleMcpRequest`
  with its method table, and the HTTP-level auth/status dispatch);
* `src/server/middleware/auth.js` and the shared `authenticateRequest`
  helper — bearer-token authentication.

JavaScript values that the code inspects dynamically are embedded as the
`Value` inductive; truthiness, property access and the `in` operator are
modelled explicitly.  Module-level mutable state (the tool cache) is passed
as an explicit state record; `Date.now()` and the dynamic `import` of tool
modules are supplied as parameters (`now`, `DiscoveryEnv`).  Thrown
exceptions are modelled with `Except String`.
-/

namespace MedusaMcp

/-- A JavaScript value as inspected by the dispatcher: the code distinguishes
`undefined`, `null`, booleans, numbers, strings, arrays and plain objects
(an object is a list of key/value fields in insertion order). -/
inductive Value where
  | vUndefined : Value
  | vNull : Value
  | vBool : Bool → Value
  | vNum : Int → Value
  | vStr : String → Value
  | vArr : List Value → Value
  | vObj : List (String × Value) → Value

/-- JavaScript truthiness: `undefined`, `null`, `false`, `0` and `""` are
falsy; arrays and objects are always truthy.  (`NaN` is not modelled; no
code path under study produces it.) -/
def truthy : Value → Bool
  | .vUndefined => false
  | .vNull => false
  | .vBool b => b
  | .vNum n => n != 0
  | .vStr s => s != ""
  | .vArr _ => true
  | .vObj _ => true

/-- Property access `v[key]`: on an object, the first field with the key
(objects built by the code never duplicate keys); on an array, `length` (the
code never reads a numeric index through a property name, so indexed access
is not modelled); `undefined` otherwise.  Access on `null`/`undefined`
throws in JS and is handled by the callers that can reach it. -/
def getField : Value → String → Value
  | .vObj fields, key => ((fields.find? (fun f => f.1 == key)).map Prod.snd).getD .vUndefined
  | .vArr xs, key => if key == "length" then .vNum xs.length else .vUndefined
  | _, _ => .vUndefined

/-- The JS `key in v` operator: key-presence test on objects (regardless of
the value stored, including `undefined`), the `length` property on arrays
(numeric indices are not modelled — no required-parameter name is numeric),
and a thrown `TypeError` on every primitive. -/
def keyIn (k : String) (v : Value) : Except String Bool :=
  match v with
  | .vObj fields => .ok (fields.any (fun f => f.1 == k))
  | .vArr _ => .ok (k == "length")
  | _ => .error "TypeError: cannot use in operator"

/-- String coercion used by template literals; array/object rendering is
abstracted (none of the verified properties depend on it). -/
def jsToString : Value → String
  | .vUndefined => "undefined"
  | .vNull => "null"
  | .vBool true => "true"
  | .vBool false => "false"
  | .vNum n => toString n
  | .vStr s => s
  | .vArr _ => ""
  | .vObj _ => "[object Object]"

mutual

/-- Serialization used for `JSON.stringify(result, null, 2)` when formatting
tool results; whitespace/pretty-printing is abstracted, the verified
properties never inspect the rendered text. -/
def stringifyValue : Value → String
  | .vUndefined => "undefined"
  | .vNull => "null"
  | .vBool true => "true"
  | .vBool false => "false"
  | .vNum n => toString n
  | .vStr s => "\x22" ++ s ++ "\x22"
  | .vArr xs => "[" ++ stringifyList xs ++ "]"
  | .vObj fs => "\x7b" ++ stringifyFields fs ++ "\x7d"

def stringifyList : List Value → String
  | [] => ""
  | [x] => stringifyValue x
  | x :: xs => stringifyValue x ++ "," ++ stringifyList xs

def stringifyFields : List (String × Value) → String
  | [] => ""
  | [(k, v)] => "\x22" ++ k ++ "\x22:" ++ stringifyValue v
  | (k, v) :: fs => "\x22" ++ k ++ "\x22:" ++ stringifyValue v ++ "," ++ stringifyFields fs

end

/-! ## JSON-RPC codec (`src/lib/jsonrpc.js`) -/

/-- Error codes from `JSON_RPC_ERRORS` in `src/lib/jsonrpc.js`. -/
def PARSE_ERROR : Int := -32700

def INVALID_REQUEST : Int := -32600

def METHOD_NOT_FOUND : Int := -32601

def INVALID_PARAMS : Int := -32602

def INTERNAL_ERROR : Int := -32603

/-- The `error` member built by `createJsonRpcError`: the `data` member is
attached only when the argument is not `null` (modelled as `Option`). -/
structure JsonRpcErrorObj where
  code : Int
  message : String
  data : Option Value

/-- A JSON-RPC response envelope (the constant `jsonrpc: "2.0"` member is
implicit): success responses carry `result`, error responses carry `error`. -/
structure JsonRpcResponse where
  id : Value
  result : Option Value
  error : Option JsonRpcErrorObj

/-- `createJsonRpcResponse(id, result)` from `src/lib/jsonrpc.js`. -/
def createJsonRpcResponse (id : Value) (result : Value) : JsonRpcResponse :=
  { id := id, result := some result, error := none }

/-- `createJsonRpcError(id, code, message, data)` from `src/lib/jsonrpc.js`;
the JS default `data = null` corresponds to passing `none`. -/
def createJsonRpcError (id : Value) (code : Int) (message : String)
    (data : Option Value) : JsonRpcResponse :=
  { id := id, result := none, error := some { code := code, message := message, data := data } }

/-- The strict comparison `parsedBody.jsonrpc === "2.0"`: true exactly on the
string `"2.0"`. -/
def isVersion2 : Value → Bool
  | .vStr s => s == "2.0"
  | _ => false

/-- `parseJsonRpcRequest(req)` from `src/lib/jsonrpc.js`, modelled on the
already-JSON-parsed body (`typeof body === 'string'` bodies are run through
`JSON.parse` first; a failure there throws and reaches the same caller
catch).  Property access on `null`/`undefined` throws a `TypeError`; any
body whose `jsonrpc` member is falsy or not strictly equal to `"2.0"` throws
`Invalid JSON-RPC version`; otherwise the parsed body is returned. -/
def parseJsonRpcRequest (body : Value) : Except String Value :=
  match body with
  | .vNull => .error "TypeError"
  | .vUndefined => .error "TypeError"
  | parsedBody =>
      if !truthy (getField parsedBody "jsonrpc") || !isVersion2 (getField parsedBody "jsonrpc") then
        .error "Invalid JSON-RPC version"
      else
        .ok parsedBody

/-! ## Tool registry (`src/lib/tools.js`) -/

/-- `parameterSchema` of a tool definition: `type`, `properties`, and the
optional `required` list. -/
structure ParameterSchema where
  type : String
  properties : List (String × Value)
  required : Option (List String)

/-- `tool.definition`: name, description and the (optional) parameter
schema object. -/
structure ToolDefinition where
  name : String
  description : String
  parameters : Option ParameterSchema

/-- The `apiTool` export of a tool module: a `definition` (possibly absent)
and the underlying async `function`; a thrown rejection is an `Except.error`. -/
structure ApiTool where
  definition : Option ToolDefinition
  function : Value → Except String Value

/-- A discovered tool: the spread `{...module.apiTool, path: file}`. -/
structure Tool where
  definition : Option ToolDefinition
  function : Value → Except String Value
  path : String

/-- Builds the discovered tool from a loaded module (`{...apiTool, path}`). -/
def mkTool (a : ApiTool) (file : String) : Tool :=
  { definition := a.definition, function := a.function, path := file }

/-- `CACHE_TTL = 5 * 60 * 1000` (five minutes, in milliseconds). -/
def CACHE_TTL : Int := 5 * 60 * 1000

/-- An MCP-shaped tool descriptor `{name, description, inputSchema}`. -/
structure McpTool where
  name : String
  description : String
  inputSchema : Option ParameterSchema

/-- A JS array reference: `refId` models object identity (the `===`
comparison on arrays compares references, not contents). -/
structure ToolsArray where
  refId : Nat
  tools : List Tool

/-- The module-level mutable state of `src/lib/tools.js`: `toolsCache`
(`null` initially), `cacheTimestamp`, and the projected `mcpToolsCache`. -/
structure ToolsModuleState where
  toolsCache : Option ToolsArray
  cacheTimestamp : Int
  mcpToolsCache : Option (List McpTool)

/-- The state at module load: both caches `null`, timestamp `0`. -/
def initialToolsState : ToolsModuleState :=
  { toolsCache := none, cacheTimestamp := 0, mcpToolsCache := none }

/-- The discovery environment: the static `toolPaths` list and the result of
dynamically importing each path.  `loadTool p = none` models a failed import
or a module without the required `apiTool` export — both are logged and
yield `null`, which `filter(Boolean)` then drops. -/
structure DiscoveryEnv where
  toolPaths : List String
  loadTool : String → Option ApiTool

/-- The result of one `discoverTools` call: the returned array, the new
module state, and whether a fresh discovery pass ran. -/
structure DiscoverResult where
  result : ToolsArray
  state : ToolsModuleState
  discoveryRan : Bool

/-- The fresh-discovery branch of `discoverTools`: every path in `toolPaths`
is attempted, failures are skipped, and the whole cache (tools list,
timestamp, MCP projection cache) is replaced as a unit.  `freshId` is the
identity of the newly allocated array. -/
def discoverFresh (env : DiscoveryEnv) (now : Int) (freshId : Nat) : DiscoverResult :=
  let tools := env.toolPaths.filterMap (fun file => (env.loadTool file).map (fun a => mkTool a file))
  let arr : ToolsArray := { refId := freshId, tools := tools }
  { result := arr
    state := { toolsCache := some arr, cacheTimestamp := now, mcpToolsCache := none }
    discoveryRan := true }

/-- `discoverTools(forceRefresh)` from `src/lib/tools.js`: returns the cached
array when `!forceRefresh && toolsCache && (now - cacheTimestamp) < CACHE_TTL`
(arrays, even empty ones, are truthy; `null` is not), otherwise runs a fresh
pass. -/
def discoverTools (env : DiscoveryEnv) (forceRefresh : Bool) (now : Int) (freshId : Nat)
    (st : ToolsModuleState) : DiscoverResult :=
  match st.toolsCache with
  | some cached =>
      if forceRefresh = false ∧ now - st.cacheTimestamp < CACHE_TTL then
        { result := cached, state := st, discoveryRan := false }
      else
        discoverFresh env now freshId
  | none => discoverFresh env now freshId

/-- The underlying projection of `transformToolsToMcp`: entries with a
`definition` map to `{name, description, inputSchema: parameters}`, entries
without one map to `null` and are dropped by `filter(Boolean)`. -/
def projectTools (tools : List Tool) : List McpTool :=
  tools.filterMap (fun t =>
    t.definition.map (fun d =>
      { name := d.name, description := d.description, inputSchema := d.parameters }))

/-- `transformToolsToMcp(tools)` from `src/lib/tools.js`: when `mcpToolsCache`
is non-null (arrays are truthy even when empty) and `toolsCache === tools`
(reference identity), the cached projection is returned unchanged; otherwise
the projection is computed and stored in `mcpToolsCache`. -/
def transformToolsToMcp (st : ToolsModuleState) (tools : ToolsArray) :
    List McpTool × ToolsModuleState :=
  match st.mcpToolsCache, st.toolsCache with
  | some cachedMcp, some cachedTools =>
      if cachedTools.refId = tools.refId then (cachedMcp, st)
      else
        let mcpTools := projectTools tools.tools
        (mcpTools, { st with mcpToolsCache := some mcpTools })
  | _, _ =>
      let mcpTools := projectTools tools.tools
      (mcpTools, { st with mcpToolsCache := some mcpTools })

/-- The lookup predicate `t.definition?.name === toolName` used by
`executeToolOptimized`: a string name matches a string `toolName`; a tool
without a `definition` yields `undefined`, which strictly equals only an
`undefined` `toolName`. -/
def nameMatches (t : Tool) (toolName : Value) : Bool :=
  match t.definition, toolName with
  | some d, .vStr s => d.name == s
  | none, .vUndefined => true
  | _, _ => false

/-- `tool.definition?.parameters?.required`: present only when the whole
optional chain is. -/
def requiredList (t : Tool) : Option (List String) :=
  t.definition.bind (fun d => d.parameters.bind (fun p => p.required))

/-- The validation loop of `executeToolOptimized`: walks `required` in order
and returns the first parameter not present (`param in args`) in the
arguments; a `TypeError` from `in` on a primitive propagates. -/
def findMissingParam (required : List String) (args : Value) : Except String (Option String) :=
  match required with
  | [] => .ok none
  | p :: rest =>
      match keyIn p args with
      | .error e => .error e
      | .ok true => findMissingParam rest args
      | .ok false => .ok (some p)

/-- The content envelope built around a tool's return value:
`{content: [{type: 'text', text: <string result as-is, otherwise
JSON.stringify>}]}`. -/
def formatToolResult (result : Value) : Value :=
  let text :=
    match result with
    | .vStr s => s
    | v => stringifyValue v
  Value.vObj [("content", Value.vArr [Value.vObj
    [("type", Value.vStr "text"), ("text", Value.vStr text)]])]

/-- The outcome of `executeToolOptimized`, together with the number of times
the underlying tool `function` was invoked. -/
structure ExecResult where
  outcome : Except String Value
  functionCalls : Nat

/-- `executeToolOptimized(tools, toolName, args)` from `src/lib/tools.js`:
`find` by definition name (throws `Tool not found` when absent), then the
required-parameter presence check (throws `Missing required parameter`
before the tool function runs), then the invocation with its result wrapped
in the content envelope; a rejection from the tool is logged and rethrown. -/
def executeToolOptimized (tools : List Tool) (toolName : Value) (args : Value) : ExecResult :=
  match tools.find? (fun t => nameMatches t toolName) with
  | none => { outcome := .error ("Tool not found: " ++ jsToString toolName), functionCalls := 0 }
  | some tool =>
      match findMissingParam ((requiredList tool).getD []) args with
      | .error e => { outcome := .error e, functionCalls := 0 }
      | .ok (some p) =>
          { outcome := .error ("Missing required parameter: " ++ p), functionCalls := 0 }
      | .ok none =>
          match tool.function args with
          | .ok result => { outcome := .ok (formatToolResult result), functionCalls := 1 }
          | .error e => { outcome := .error e, functionCalls := 1 }

/-! ## The serverless MCP dispatcher (`src/api/mcp/index.js`) -/

/-- The precomputed `INITIALIZE_RESPONSE` constant (protocol version,
capabilities, server info from `src/lib/constants.js`). -/
def INITIALIZE_RESPONSE : Value :=
  Value.vObj
    [("protocolVersion", .vStr "2024-11-05"),
     ("capabilities", .vObj [("tools", .vObj [])]),
     ("serverInfo", .vObj [("name", .vStr "medusa-admin-mcp-server"), ("version", .vStr "1.0.0")])]

/-- Renders a parameter schema back to a JSON value for the `tools/list`
response body. -/
def schemaToValue (p : ParameterSchema) : Value :=
  Value.vObj
    ([("type", .vStr p.type), ("properties", .vObj p.properties)] ++
      (match p.required with
       | some r => [("required", Value.vArr (r.map Value.vStr))]
       | none => []))

/-- Renders an MCP tool descriptor to a JSON value. -/
def mcpToolToValue (t : McpTool) : Value :=
  Value.vObj
    [("name", .vStr t.name),
     ("description", .vStr t.description),
     ("inputSchema", match t.inputSchema with | some p => schemaToValue p | none => .vUndefined)]

/-- The error response produced by the catch block of `handleMcpRequest` for
any exception: `createJsonRpcError(null, INTERNAL_ERROR, 'Internal error',
{message: error.message})`. -/
def internalErrorResponse (e : String) : JsonRpcResponse :=
  createJsonRpcError .vNull INTERNAL_ERROR "Internal error"
    (some (.vObj [("message", .vStr e)]))

/-- `methodHandlers['tools/call']` from `src/api/mcp/index.js`: destructures
`params` (throwing a `TypeError` on `null`/`undefined`), returns an
`InvalidParams` error when `name` is falsy, and otherwise delegates to
`executeToolOptimized`, rethrowing its failures.  The second component
counts invocations of the underlying tool function. -/
def toolsCallHandler (id : Value) (params : Value) (tools : List Tool) :
    Except String JsonRpcResponse × Nat :=
  match params with
  | .vNull => (.error "TypeError: cannot destructure", 0)
  | .vUndefined => (.error "TypeError: cannot destructure", 0)
  | p =>
      let name := getField p "name"
      let args :=
        match getField p "arguments" with
        | .vUndefined => Value.vObj []
        | a => a
      if truthy name = false then
        (.ok (createJsonRpcError id INVALID_PARAMS "Missing tool name" none), 0)
      else
        let ex := executeToolOptimized tools name args
        match ex.outcome with
        | .ok result => (.ok (createJsonRpcResponse id result), ex.functionCalls)
        | .error e => (.error e, ex.functionCalls)

/-- The observable outcome of one `handleMcpRequest` call: the JSON-RPC
response, the new tools-module state, the number of fresh discovery passes
run, and the number of tool-function invocations. -/
structure McpOutcome where
  response : JsonRpcResponse
  state : ToolsModuleState
  discoveryPasses : Nat
  functionCalls : Nat

/-- `handleMcpRequest(req)` from `src/api/mcp/index.js`: parses the request,
looks the method up in `methodHandlers` (only `initialize`, `tools/list` and
`tools/call` exist; anything else is `MethodNotFound`), runs `discoverTools()`
only for the two tool methods, executes the handler, and maps any thrown
error to `createJsonRpcError(null, INTERNAL_ERROR, 'Internal error',
{message})`.  `id`/`method` are read off the parsed body; `params` defaults
to `{}` only when `undefined`. -/
def handleMcpRequest (env : DiscoveryEnv) (now : Int) (freshId : Nat)
    (st : ToolsModuleState) (body : Value) : McpOutcome :=
  match parseJsonRpcRequest body with
  | .error e =>
      { response := internalErrorResponse e, state := st, discoveryPasses := 0, functionCalls := 0 }
  | .ok parsed =>
      let id := getField parsed "id"
      let params :=
        match getField parsed "params" with
        | .vUndefined => Value.vObj []
        | p => p
      match getField parsed "method" with
      | .vStr "initialize" =>
          { response := createJsonRpcResponse id INITIALIZE_RESPONSE, state := st
            discoveryPasses := 0, functionCalls := 0 }
      | .vStr "tools/list" =>
          let d := discoverTools env false now freshId st
          let pr := transformToolsToMcp d.state d.result
          { response := createJsonRpcResponse id
              (Value.vObj [("tools", Value.vArr (pr.1.map mcpToolToValue))])
            state := pr.2
            discoveryPasses := if d.discoveryRan then 1 else 0
            functionCalls := 0 }
      | .vStr "tools/call" =>
          let d := discoverTools env false now freshId st
          let hr := toolsCallHandler id params d.result.tools
          { response :=
              match hr.1 with
              | .ok r => r
              | .error e => internalErrorResponse e
            state := d.state
            discoveryPasses := if d.discoveryRan then 1 else 0
            functionCalls := hr.2 }
      | m =>
          { response := createJsonRpcError id METHOD_NOT_FOUND
              ("Method not found: " ++ jsToString m) none
            state := st, discoveryPasses := 0, functionCalls := 0 }

/-! ## Authentication (`src/server/middleware/auth.js` and the shared
`authenticateRequest` helper used by `src/api/mcp/index.js`) -/

/-- Truthiness of an optional header or environment string: `undefined`
(absent) and the empty string are falsy. -/
def strFalsy : Option String → Bool
  | none => true
  | some s => s == ""

/-- Character-level splitter behind `authHeader.split(' ')`: splitting the
empty character list yields one empty group, every space starts a new
group. -/
def splitCharsOnSpace : List Char → List (List Char)
  | [] => [[]]
  | c :: rest =>
      let r := splitCharsOnSpace rest
      if c = ' ' then [] :: r
      else
        match r with
        | [] => [[c]]
        | g :: gs => (c :: g) :: gs

/-- The JS `s.split(' ')` (single-space separator, no limit). -/
def jsSplitSpace (s : String) : List String :=
  (splitCharsOnSpace s.data).map (fun cs => String.mk cs)

/-- The JS `s.startsWith(p)`. -/
def jsStartsWith (s p : String) : Bool := p.data.isPrefixOf s.data

/-- The JS `s.toLowerCase()` (ASCII case mapping suffices for the scheme
comparison performed by the middleware). -/
def jsToLowerCase (s : String) : String := String.mk (s.data.map Char.toLower)

/-- The `[scheme] = authHeader.split(' ')` destructuring. -/
def headerScheme (h : String) : Option String := (jsSplitSpace h).get? 0

/-- The `[, token] = authHeader.split(' ')` destructuring. -/
def headerToken (h : String) : Option String := (jsSplitSpace h).get? 1

/-- The format check of `authMiddleware`:
`scheme?.toLowerCase() !== 'bearer' || !token`. -/
def malformedHeader (h : String) : Bool :=
  !(((headerScheme h).map jsToLowerCase) == some "bearer") || strFalsy (headerToken h)

/-- An Express request as seen by the middleware: path, method and the
`authorization` header. -/
structure ExpressReq where
  path : String
  method : String
  authorization : Option String

/-- What the middleware does with a request: pass it on (`next()`) or answer
with a status and a JSON error body. -/
inductive ExpressAuthResult where
  | next : ExpressAuthResult
  | respond (status : Nat) (error : String) (message : String) : ExpressAuthResult

/-- `authMiddleware(req, res, next)` from `src/server/middleware/auth.js`:
health endpoints and `OPTIONS` bypass auth; a falsy header is 401; a header
that does not parse as `Bearer <token>` is 401; an unset (or empty)
`MCP_AUTH_TOKEN` is 500; a token mismatch is 401; otherwise `next()`. -/
def authMiddleware (expectedToken : Option String) (req : ExpressReq) : ExpressAuthResult :=
  if req.path = "/health" ∨ req.path = "/ready" then .next
  else if req.method = "OPTIONS" then .next
  else if strFalsy req.authorization then
    .respond 401 "Unauthorized" "Missing Authorization header"
  else
    let h := req.authorization.getD ""
    if malformedHeader h then
      .respond 401 "Unauthorized" "Invalid Authorization header format. Expected: Bearer <token>"
    else if strFalsy expectedToken then
      .respond 500 "Internal Server Error" "Server authentication not configured"
    else if headerToken h ≠ expectedToken then
      .respond 401 "Unauthorized" "Invalid token"
    else .next

/-- `authenticateRequest(req)` from the shared auth helper: false when
`MCP_AUTH_TOKEN` is unset or empty (fail closed), false when the header is
falsy or does not start with `Bearer `, and otherwise a strict equality test
of `authHeader.slice(7)` against the expected token. -/
def authenticateRequest (expectedToken : Option String) (authHeader : Option String) : Bool :=
  if strFalsy expectedToken then false
  else if strFalsy authHeader then false
  else
    let h := authHeader.getD ""
    if jsStartsWith h "Bearer " then h.drop 7 == expectedToken.getD "" else false

/-- The HTTP status produced by the main serverless handler in
`src/api/mcp/index.js`: `OPTIONS` is answered 204 before authentication;
every unauthenticated request gets 401 (`HTTP_STATUS.UNAUTHORIZED`);
authenticated `GET`/`POST` are 200; anything else is 405. -/
def serverlessHandlerStatus (expectedToken : Option String) (method : String)
    (authHeader : Option String) : Nat :=
  if method = "OPTIONS" then 204
  else if authenticateRequest expectedToken authHeader = false then 401
  else if method = "GET" then 200
  else if method = "POST" then 200
  else 405

/-! ## Projections and concrete instances used by the theorems below -/

/-- The error code carried by a response, when it is an error response. -/
def responseCode (r : JsonRpcResponse) : Option Int := r.error.map JsonRpcErrorObj.code

/-- The error message carried by a response, when it is an error response. -/
def responseErrMessage (r : JsonRpcResponse) : Option String :=
  r.error.map JsonRpcErrorObj.message

/-- A discovery environment with no tool sources. -/
def emptyEnv : DiscoveryEnv := { toolPaths := [], loadTool := fun _ => none }

/-- A small concrete tool schema with one required parameter. -/
def sampleSchema : ParameterSchema :=
  { type := "object"
    properties := [("id", .vObj [("type", .vStr "string")])]
    required := some ["id"] }

/-- A small concrete tool module export. -/
def sampleApiTool : ApiTool :=
  { definition := some
      { name := "get_products", description := "List products", parameters := some sampleSchema }
    function := fun _ => .ok (.vStr "ok") }

/-- A discovery environment with one loadable source and one broken source. -/
def mixedEnv : DiscoveryEnv :=
  { toolPaths := ["good.js", "bad.js"]
    loadTool := fun p => if p = "good.js" then some sampleApiTool else none }

/-- A request whose `jsonrpc` member is `"1.0"`, with id 7. -/
def c1Body : Value :=
  .vObj [("jsonrpc", .vStr "1.0"), ("id", .vNum 7), ("method", .vStr "initialize")]

/-- A `tools/call` request with empty params (no `name`), id 2. -/
def c2Body : Value :=
  .vObj [("jsonrpc", .vStr "2.0"), ("id", .vNum 2),
         ("method", .vStr "tools/call"), ("params", .vObj [])]

/-- A `tools/call` request naming a tool that does not exist, id 3. -/
def c3Body : Value :=
  .vObj [("jsonrpc", .vStr "2.0"), ("id", .vNum 3),
         ("method", .vStr "tools/call"), ("params", .vObj [("name", .vStr "nope")])]

/-- A batch payload: an array holding one perfectly valid JSON-RPC request. -/
def c6Batch : Value :=
  .vArr [.vObj [("jsonrpc", .vStr "2.0"), ("id", .vNum 1), ("method", .vStr "ping")]]

/-- A tool named `a` (for the memoization counterexample). -/
def c7ToolA : Tool :=
  { definition := some { name := "a", description := "tool a", parameters := none }
    function := fun _ => .ok .vNull
    path := "a.js" }

/-- A tool named `b` (for the memoization counterexample). -/
def c7ToolB : Tool :=
  { definition := some { name := "b", description := "tool b", parameters := none }
    function := fun _ => .ok .vNull
    path := "b.js" }

/-- Array reference 0 holding tool `a`. -/
def c7ArrA : ToolsArray := { refId := 0, tools := [c7ToolA] }

/-- Array reference 1 holding tool `b`. -/
def c7ArrB : ToolsArray := { refId := 1, tools := [c7ToolB] }

/-- A module state whose `toolsCache` is array 0 and whose projection cache
is empty (exactly the state right after a discovery pass produced array 0). -/
def c7State : ToolsModuleState :=
  { toolsCache := some c7ArrA, cacheTimestamp := 0, mcpToolsCache := none }

/-- A tool requiring four parameters, used to exercise presence-only
validation. -/
def presenceTool : Tool :=
  { definition := some
      { name := "presence"
        description := "requires a b c d"
        parameters := some
          { type := "object", properties := [], required := some ["a", "b", "c", "d"] } }
    function := fun args => .ok args
    path := "presence.js" }

/-- Argument fields supplying every required key of `presenceTool`, each
bound to a falsy or empty value. -/
def presenceFields : List (String × Value) :=
  [("a", .vUndefined), ("b", .vNull), ("c", .vBool false), ("d", .vStr "")]

/-- The argument object built from `presenceFields`. -/
def presenceArgs : Value := .vObj presenceFields

/-- The Boolean test "required parameter `p` is absent from `args`" (the
negation of the `in` check, on argument shapes where `in` succeeds). -/
def missingB (args : Value) (p : String) : Bool :=
  match keyIn p args with
  | .ok false => true
  | _ => false

/-- The first required parameter absent from the arguments, if any — the
parameter whose name `executeToolOptimized` puts in its error. -/
def firstMissingParam (required : List String) (args : Value) : Option String :=
  required.find? (missingB args)

/-! ## Helper lemmas -/

/-- A body whose `jsonrpc` member is not strictly `"2.0"` never parses: it
throws either the `TypeError` of a `null`/`undefined` property access or the
`Invalid JSON-RPC version` error. -/
theorem parse_error_of_not_version2 (body : Value)
    (h : isVersion2 (getField body "jsonrpc") = false) :
    parseJsonRpcRequest body = .error "TypeError" ∨
      parseJsonRpcRequest body = .error "Invalid JSON-RPC version" := by
  cases body with
  | vNull => exact Or.inl rfl
  | vUndefined => exact Or.inl rfl
  | vBool b => exact Or.inr (by simp [parseJsonRpcRequest, h])
  | vNum n => exact Or.inr (by simp [parseJsonRpcRequest, h])
  | vStr s => exact Or.inr (by simp [parseJsonRpcRequest, h])
  | vArr xs => exact Or.inr (by simp [parseJsonRpcRequest, h])
  | vObj fs => exact Or.inr (by simp [parseJsonRpcRequest, h])

/-! ## C1 -/

/-- C1 (amended): for every JSON-RPC request whose `jsonrpc` field is absent
or not equal to `"2.0"`, the handler returns a JSON-RPC error response with
code -32603 (InternalError) and message `Internal error`, with id `null`
regardless of the request's own id; no discovery pass and no tool invocation
happens. -/
theorem handleMcpRequest_invalidVersion (env : DiscoveryEnv) (now : Int) (freshId : Nat)
    (st : ToolsModuleState) (body : Value)
    (h : isVersion2 (getField body "jsonrpc") = false) :
    responseCode (handleMcpRequest env now freshId st body).response = some INTERNAL_ERROR ∧
    responseErrMessage (handleMcpRequest env now freshId st body).response =
      some "Internal error" ∧
    (handleMcpRequest env now freshId st body).response.id = .vNull ∧
    (handleMcpRequest env now freshId st body).response.result = none ∧
    (handleMcpRequest env now freshId st body).state = st ∧
    (handleMcpRequest env now freshId st body).discoveryPasses = 0 ∧
    (handleMcpRequest env now freshId st body).functionCalls = 0 := by
  rcases parse_error_of_not_version2 body h with hp | hp <;>
    simp [handleMcpRequest, hp, internalErrorResponse, createJsonRpcError,
      responseCode, responseErrMessage]

/-- C1 witness: the invalid-version theorem applied to a concrete request
with `jsonrpc: "1.0"` and id 7. -/
theorem handleMcpRequest_invalidVersion_witness :
    responseCode (handleMcpRequest emptyEnv 0 0 initialToolsState c1Body).response =
      some INTERNAL_ERROR ∧
    responseErrMessage (handleMcpRequest emptyEnv 0 0 initialToolsState c1Body).response =
      some "Internal error" ∧
    (handleMcpRequest emptyEnv 0 0 initialToolsState c1Body).response.id = .vNull ∧
    (handleMcpRequest emptyEnv 0 0 initialToolsState c1Body).response.result = none ∧
    (handleMcpRequest emptyEnv 0 0 initialToolsState c1Body).state = initialToolsState ∧
    (handleMcpRequest emptyEnv 0 0 initialToolsState c1Body).discoveryPasses = 0 ∧
    (handleMcpRequest emptyEnv 0 0 initialToolsState c1Body).functionCalls = 0 :=
  handleMcpRequest_invalidVersion emptyEnv 0 0 initialToolsState c1Body rfl

/-- C1 counterexample: for the request `{jsonrpc: "1.0", id: 7, method:
"initialize"}` the handler's error code is -32603, not -32600, and the
response id is `null`, not the original id 7 — refuting the claim as
stated. -/
theorem c1_counterexample :
    responseCode (handleMcpRequest emptyEnv 0 0 initialToolsState c1Body).response =
      some INTERNAL_ERROR ∧
    ¬ responseCode (handleMcpRequest emptyEnv 0 0 initialToolsState c1Body).response =
      some INVALID_REQUEST ∧
    (handleMcpRequest emptyEnv 0 0 initialToolsState c1Body).response.id = .vNull ∧
    ¬ (handleMcpRequest emptyEnv 0 0 initialToolsState c1Body).response.id = .vNum 7 := by
  refine ⟨rfl, by decide, rfl, fun hid => ?_⟩
  exact Value.noConfusion hid

/-! ## C6 -/

/-- C6 (amended): the request parser rejects every JSON array payload (a
batch): property lookup of `jsonrpc` on an array yields `undefined`, so the
parser throws `Invalid JSON-RPC version` instead of returning the batch. -/
theorem parseJsonRpcRequest_rejects_batch (xs : List Value) :
    parseJsonRpcRequest (Value.vArr xs) = .error "Invalid JSON-RPC version" := rfl

/-- C6 counterexample: a batch consisting of one valid JSON-RPC 2.0 request
is not accepted — the parser throws rather than returning the batch. -/
theorem c6_counterexample :
    parseJsonRpcRequest c6Batch = .error "Invalid JSON-RPC version" ∧
    ¬ parseJsonRpcRequest c6Batch = .ok c6Batch := by
  refine ⟨rfl, fun h => ?_⟩
  exact Except.noConfusion h

/-! ## C4 -/

/-- C4 (confirmed): with `forceRefresh` false, an existing cache and an age
below the TTL, `discoverTools` returns the cached array unchanged, keeps the
whole module state and runs no discovery pass; in every other situation it
runs exactly one fresh pass over the static source list and replaces the
whole cache as a unit, with the timestamp set to `now`. -/
theorem discoverTools_cache_semantics (env : DiscoveryEnv) (force : Bool) (now : Int)
    (freshId : Nat) (st : ToolsModuleState) :
    (∀ c, st.toolsCache = some c → force = false → now - st.cacheTimestamp < CACHE_TTL →
      discoverTools env force now freshId st =
        { result := c, state := st, discoveryRan := false }) ∧
    ((st.toolsCache = none ∨ force = true ∨ ¬ now - st.cacheTimestamp < CACHE_TTL) →
      (discoverTools env force now freshId st).discoveryRan = true ∧
      (discoverTools env force now freshId st).result.tools =
        env.toolPaths.filterMap (fun file => (env.loadTool file).map (fun a => mkTool a file)) ∧
      (discoverTools env force now freshId st).state.toolsCache =
        some (discoverTools env force now freshId st).result ∧
      (discoverTools env force now freshId st).state.cacheTimestamp = now ∧
      (discoverTools env force now freshId st).state.mcpToolsCache = none) := by
  constructor
  · intro c hc hf ht
    subst hf
    simp [discoverTools, hc, ht]
  · intro h
    have he : discoverTools env force now freshId st = discoverFresh env now freshId := by
      rcases h with hn | hf | ht
      · simp [discoverTools, hn]
      · subst hf
        cases hc : st.toolsCache with
        | none => simp [discoverTools, hc]
        | some c => simp [discoverTools, hc]
      · cases hc : st.toolsCache with
        | none => simp [discoverTools, hc]
        | some c => simp [discoverTools, hc, ht]
    rw [he]
    refine ⟨rfl, rfl, rfl, rfl, rfl⟩

/-- C4 witness: within the TTL the cached array 0 is returned with no pass;
after the TTL (400000 ms > 300000 ms) a fresh pass runs. -/
theorem discoverTools_cache_semantics_witness :
    discoverTools emptyEnv false 1000 5 c7State =
      { result := c7ArrA, state := c7State, discoveryRan := false } ∧
    (discoverTools mixedEnv false 400000 6 c7State).discoveryRan = true := by
  constructor
  · exact (discoverTools_cache_semantics emptyEnv false 1000 5 c7State).1 c7ArrA rfl rfl
      (by decide)
  · exact ((discoverTools_cache_semantics mixedEnv false 400000 6 c7State).2
      (Or.inr (Or.inr (by decide)))).1

/-! ## C8 -/

/-- Whenever `discoverTools` reports that a pass ran, the call took the
fresh-discovery branch. -/
theorem discoverTools_eq_fresh_of_ran (env : DiscoveryEnv) (force : Bool) (now : Int)
    (freshId : Nat) (st : ToolsModuleState)
    (h : (discoverTools env force now freshId st).discoveryRan = true) :
    discoverTools env force now freshId st = discoverFresh env now freshId := by
  cases hc : st.toolsCache with
  | none => simp [discoverTools, hc]
  | some c =>
      by_cases hcond : force = false ∧ now - st.cacheTimestamp < CACHE_TTL
      · exfalso
        simp [discoverTools, hc, hcond] at h
      · simp [discoverTools, hc, hcond]

/-- C8 (confirmed): in every discovery pass, a source that fails to load
contributes nothing to the cycle's tool list (no tool carries its path),
the pass itself still completes, and every source that does load is present
in the resulting list. -/
theorem discovery_skips_failed_sources (env : DiscoveryEnv) (force : Bool) (now : Int)
    (freshId : Nat) (st : ToolsModuleState)
    (hrun : (discoverTools env force now freshId st).discoveryRan = true) :
    (discoverTools env force now freshId st).result.tools =
      env.toolPaths.filterMap (fun file => (env.loadTool file).map (fun a => mkTool a file)) ∧
    (∀ p, env.loadTool p = none →
      ∀ t ∈ (discoverTools env force now freshId st).result.tools, t.path ≠ p) ∧
    (∀ p ∈ env.toolPaths, ∀ a, env.loadTool p = some a →
      mkTool a p ∈ (discoverTools env force now freshId st).result.tools) := by
  have he := discoverTools_eq_fresh_of_ran env force now freshId st hrun
  rw [he]
  refine ⟨rfl, ?_, ?_⟩
  · intro p hpnone t ht hpath
    have ht2 : t ∈ env.toolPaths.filterMap
        (fun file => (env.loadTool file).map (fun a => mkTool a file)) := ht
    obtain ⟨file, _, hfl⟩ := List.mem_filterMap.mp ht2
    cases hlf : env.loadTool file with
    | none => rw [hlf] at hfl; exact Option.noConfusion hfl
    | some a =>
        rw [hlf] at hfl
        have hteq : mkTool a file = t := Option.some.inj hfl
        have hfile : file = p := by
          rw [← hpath, ← hteq]
          rfl
        rw [hfile] at hlf
        rw [hpnone] at hlf
        exact Option.noConfusion hlf
  · intro p hp a ha
    exact List.mem_filterMap.mpr ⟨p, hp, by rw [ha]; rfl⟩

/-- C8 witness: a pass over one loadable and one broken source keeps the
loadable tool and drops the broken one. -/
theorem discovery_skips_failed_sources_witness :
    (discoverTools mixedEnv true 0 0 initialToolsState).result.tools =
      [mkTool sampleApiTool "good.js"] ∧
    mkTool sampleApiTool "good.js" ∈ (discoverTools mixedEnv true 0 0 initialToolsState).result.tools ∧
    ¬ mkTool sampleApiTool "bad.js" ∈ (discoverTools mixedEnv true 0 0 initialToolsState).result.tools := by
  have h := discovery_skips_failed_sources mixedEnv true 0 0 initialToolsState rfl
  refine ⟨?_, ?_, ?_⟩
  · rw [h.1]
    rfl
  · exact h.2.2 "good.js" (by simp [mixedEnv]) sampleApiTool rfl
  · intro hm
    exact h.2.1 "bad.js" rfl (mkTool sampleApiTool "bad.js") hm rfl

/-! ## C5 -/

/-- When `in` succeeds for one key it succeeds for every key: whether `in`
throws depends only on the shape of the argument value. -/
theorem keyIn_ok_total (args : Value) (k : String) (b : Bool) (h : keyIn k args = .ok b)
    (j : String) : ∃ b2, keyIn j args = .ok b2 := by
  cases args with
  | vObj fs => exact ⟨_, rfl⟩
  | vArr xs => exact ⟨_, rfl⟩
  | vUndefined => exact absurd h (by simp [keyIn])
  | vNull => exact absurd h (by simp [keyIn])
  | vBool c => exact absurd h (by simp [keyIn])
  | vNum n => exact absurd h (by simp [keyIn])
  | vStr s => exact absurd h (by simp [keyIn])

/-- When no `in` check throws, the validation loop returns exactly the first
missing required parameter. -/
theorem findMissingParam_eq_first (required : List String) (args : Value)
    (hok : ∀ j : String, ∃ b, keyIn j args = .ok b) :
    findMissingParam required args = .ok (firstMissingParam required args) := by
  induction required with
  | nil => rfl
  | cons p rest ih =>
      obtain ⟨b, hb⟩ := hok p
      cases b with
      | true =>
          have hmb : missingB args p = false := by simp [missingB, hb]
          simp [findMissingParam, hb, firstMissingParam, List.find?, hmb]
          simpa [firstMissingParam] using ih
      | false =>
          have hmb : missingB args p = true := by simp [missingB, hb]
          simp [findMissingParam, hb, firstMissingParam, List.find?, hmb]

/-- A required key absent from the arguments guarantees the missing-parameter
search succeeds. -/
theorem firstMissingParam_isSome (required : List String) (args : Value) (k : String)
    (hk : k ∈ required) (hmiss : keyIn k args = .ok false) :
    (firstMissingParam required args).isSome = true := by
  apply List.find?_isSome.mpr
  exact ⟨k, hk, by simp [missingB, hmiss]⟩

/-- C5 (confirmed): when a tool is found and its schema's `required` list
names a key absent from the supplied arguments, execution fails with the
missing-required-parameter error naming the first missing key, and the
underlying tool function is invoked zero times. -/
theorem executeTool_missingRequired (tools : List Tool) (toolName args : Value) (tool : Tool)
    (req : List String) (k : String)
    (hfind : tools.find? (fun t => nameMatches t toolName) = some tool)
    (hreq : requiredList tool = some req)
    (hk : k ∈ req)
    (hmiss : keyIn k args = .ok false) :
    (firstMissingParam req args).isSome = true ∧
    executeToolOptimized tools toolName args =
      { outcome := .error ("Missing required parameter: " ++ (firstMissingParam req args).getD k)
        functionCalls := 0 } := by
  have hok := keyIn_ok_total args k false hmiss
  have hfm := findMissingParam_eq_first req args hok
  have hsome := firstMissingParam_isSome req args k hk hmiss
  obtain ⟨p, hp⟩ := Option.isSome_iff_exists.mp hsome
  refine ⟨hsome, ?_⟩
  simp [executeToolOptimized, hfind, hreq, hfm, hp]

/-- C5 witness: the four-parameter tool called with only `a` supplied fails
naming `b`, the first missing required key, without invoking the tool. -/
theorem executeTool_missingRequired_witness :
    (firstMissingParam ["a", "b", "c", "d"] (.vObj [("a", .vNum 1)])).isSome = true ∧
    executeToolOptimized [presenceTool] (.vStr "presence") (.vObj [("a", .vNum 1)]) =
      { outcome := .error ("Missing required parameter: " ++
          (firstMissingParam ["a", "b", "c", "d"] (.vObj [("a", .vNum 1)])).getD "b")
        functionCalls := 0 } :=
  executeTool_missingRequired [presenceTool] (.vStr "presence") (.vObj [("a", .vNum 1)])
    presenceTool ["a", "b", "c", "d"] "b" rfl rfl (by simp) rfl

/-! ## C10 -/

/-- When every required key is present among the argument object's fields,
the validation loop finds nothing missing. -/
theorem findMissingParam_none_of_present (req : List String) (fields : List (String × Value))
    (h : ∀ k ∈ req, fields.any (fun f => f.1 == k) = true) :
    findMissingParam req (.vObj fields) = .ok none := by
  induction req with
  | nil => rfl
  | cons p rest ih =>
      have hp := h p (List.mem_cons_self p rest)
      simp [findMissingParam, keyIn, hp]
      simpa [keyIn] using ih (fun k hk => h k (List.mem_cons_of_mem p hk))

/-- C10 (confirmed): required-parameter validation tests key presence only —
whenever every required key occurs among the argument object's fields, with
whatever value (including `undefined`, `null`, `false` or `""`), validation
passes and the underlying tool function is invoked exactly once with those
arguments, its outcome wrapped as usual. -/
theorem executeTool_presenceOnly (tools : List Tool) (toolName : Value) (tool : Tool)
    (fields : List (String × Value))
    (hfind : tools.find? (fun t => nameMatches t toolName) = some tool)
    (hpresent : ∀ k ∈ (requiredList tool).getD [], fields.any (fun f => f.1 == k) = true) :
    executeToolOptimized tools toolName (.vObj fields) =
      { outcome :=
          match tool.function (.vObj fields) with
          | .ok r => .ok (formatToolResult r)
          | .error e => .error e
        functionCalls := 1 } := by
  have hnone := findMissingParam_none_of_present ((requiredList tool).getD []) fields hpresent
  simp [executeToolOptimized, hfind, hnone]
  cases hf : tool.function (Value.vObj fields) with
  | ok r => simp [hf]
  | error e => simp [hf]

/-- C10 witness: every required key of the four-parameter tool present but
bound to `undefined`, `null`, `false` and `""` respectively — validation
passes and the tool function runs once. -/
theorem executeTool_presenceOnly_witness :
    executeToolOptimized [presenceTool] (.vStr "presence") presenceArgs =
      { outcome := .ok (formatToolResult presenceArgs), functionCalls := 1 } :=
  executeTool_presenceOnly [presenceTool] (.vStr "presence") presenceTool
    presenceFields rfl (by decide)

/-! ## C7 -/

/-- C7 (amended): `transformToolsToMcp` returns its input's projection — each
entry with a `definition` mapped to `{name, description, inputSchema}`,
entries without one dropped — whenever the memo cache is empty or was built
from the very array being passed (the only situations the dispatcher
creates); the memo key is identity with the module-level `toolsCache`, not
the call's own input, so other call sequences can return a stale projection
of a different array. -/
theorem transformToolsToMcp_projection (st : ToolsModuleState) (tools : ToolsArray)
    (h : st.mcpToolsCache = none ∨
      (st.toolsCache = some tools ∧ st.mcpToolsCache = some (projectTools tools.tools))) :
    (transformToolsToMcp st tools).1 = projectTools tools.tools ∧
    (transformToolsToMcp st tools).2.mcpToolsCache = some (projectTools tools.tools) := by
  rcases h with h | ⟨hc, hm⟩
  · cases hc2 : st.toolsCache <;> simp [transformToolsToMcp, h, hc2]
  · simp [transformToolsToMcp, hc, hm]

/-- C7 witness: the first projection after a discovery pass (empty memo
cache) is the input's own projection and fills the memo cache. -/
theorem transformToolsToMcp_projection_witness :
    (transformToolsToMcp c7State c7ArrA).1 = projectTools c7ArrA.tools ∧
    (transformToolsToMcp c7State c7ArrA).2.mcpToolsCache = some (projectTools c7ArrA.tools) :=
  transformToolsToMcp_projection c7State c7ArrA (Or.inl rfl)

/-- C7 counterexample: with `toolsCache` holding array 0, projecting array 1
and then array 0 returns array 1's projection for array 0 — the memoization
is not keyed by the call's input, refuting the claim that every call returns
its own input's projection regardless of earlier calls. -/
theorem c7_counterexample :
    (transformToolsToMcp (transformToolsToMcp c7State c7ArrB).2 c7ArrA).1 =
      projectTools c7ArrB.tools ∧
    ¬ (transformToolsToMcp (transformToolsToMcp c7State c7ArrB).2 c7ArrA).1 =
      projectTools c7ArrA.tools := by
  refine ⟨rfl, fun h => ?_⟩
  have h2 : projectTools c7ArrB.tools = projectTools c7ArrA.tools :=
    Eq.trans (by rfl) h
  injection h2 with hhead _
  injection hhead with hname _ _
  exact absurd hname (by decide)

/-! ## C2 -/

/-- A body object carrying `jsonrpc: "2.0"` parses to itself. -/
theorem parse_ok_of_version2 (fs : List (String × Value))
    (h : getField (Value.vObj fs) "jsonrpc" = .vStr "2.0") :
    parseJsonRpcRequest (Value.vObj fs) = .ok (Value.vObj fs) := by
  simp [parseJsonRpcRequest, h, isVersion2, truthy]

/-- C2 (amended): a `tools/call` request whose params carry no truthy `name`
is answered with an InvalidParams (-32602) error carrying the request id,
and no tool-execution work happens (the underlying tool function is invoked
zero times) — but the tool-discovery step is not skipped: it runs before the
`name` check, performing one fresh pass whenever the cache is missing or
stale and zero otherwise. -/
theorem toolsCall_missingName (env : DiscoveryEnv) (now : Int) (freshId : Nat)
    (st : ToolsModuleState) (bodyFields pFields : List (String × Value))
    (hv : getField (Value.vObj bodyFields) "jsonrpc" = .vStr "2.0")
    (hm : getField (Value.vObj bodyFields) "method" = .vStr "tools/call")
    (hp : getField (Value.vObj bodyFields) "params" = .vObj pFields ∨
      (getField (Value.vObj bodyFields) "params" = .vUndefined ∧ pFields = []))
    (hn : truthy (getField (Value.vObj pFields) "name") = false) :
    (handleMcpRequest env now freshId st (Value.vObj bodyFields)).response =
      createJsonRpcError (getField (Value.vObj bodyFields) "id")
        INVALID_PARAMS "Missing tool name" none ∧
    (handleMcpRequest env now freshId st (Value.vObj bodyFields)).functionCalls = 0 ∧
    (handleMcpRequest env now freshId st (Value.vObj bodyFields)).discoveryPasses =
      (if st.toolsCache.isSome = true ∧ now - st.cacheTimestamp < CACHE_TTL then 0 else 1) := by
  have hparse := parse_ok_of_version2 bodyFields hv
  have hdp : (if (discoverTools env false now freshId st).discoveryRan then 1 else 0) =
      (if st.toolsCache.isSome = true ∧ now - st.cacheTimestamp < CACHE_TTL then 0 else 1) := by
    cases hc : st.toolsCache with
    | none => simp [discoverTools, hc, discoverFresh]
    | some c =>
        by_cases ht : now - st.cacheTimestamp < CACHE_TTL
        · simp [discoverTools, hc, ht]
        · simp [discoverTools, hc, ht, discoverFresh]
  rcases hp with hp | ⟨hp, hpe⟩
  · refine ⟨?_, ?_, ?_⟩ <;>
      simp [handleMcpRequest, hparse, hm, hp, toolsCallHandler, hn, hdp]
  · subst hpe
    refine ⟨?_, ?_, ?_⟩ <;>
      simp [handleMcpRequest, hparse, hm, hp, toolsCallHandler, hn, hdp]

/-- C2 witness: the concrete request `{jsonrpc: "2.0", id: 2, method:
"tools/call", params: {}}` against a cold cache. -/
theorem toolsCall_missingName_witness :
    (handleMcpRequest mixedEnv 0 0 initialToolsState c2Body).response =
      createJsonRpcError (getField c2Body "id") INVALID_PARAMS "Missing tool name" none ∧
    (handleMcpRequest mixedEnv 0 0 initialToolsState c2Body).functionCalls = 0 ∧
    (handleMcpRequest mixedEnv 0 0 initialToolsState c2Body).discoveryPasses =
      (if initialToolsState.toolsCache.isSome = true ∧
          (0 : Int) - initialToolsState.cacheTimestamp < CACHE_TTL then 0 else 1) :=
  toolsCall_missingName mixedEnv 0 0 initialToolsState
    [("jsonrpc", .vStr "2.0"), ("id", .vNum 2), ("method", .vStr "tools/call"),
      ("params", .vObj [])]
    [] rfl rfl (Or.inl rfl) rfl

/-- C2 counterexample: on the missing-`name` request the dispatcher does
return -32602 with id 2, but its discovery-pass count is 1, not 0 — the
discovery work ran before the error was produced, refuting the claim that
the error comes before any tool-discovery work. -/
theorem c2_counterexample :
    (handleMcpRequest mixedEnv 0 0 initialToolsState c2Body).response =
      createJsonRpcError (.vNum 2) INVALID_PARAMS "Missing tool name" none ∧
    (handleMcpRequest mixedEnv 0 0 initialToolsState c2Body).discoveryPasses = 1 ∧
    ¬ (handleMcpRequest mixedEnv 0 0 initialToolsState c2Body).discoveryPasses = 0 := by
  refine ⟨rfl, rfl, by decide⟩

/-! ## C3 -/

/-- C3 (amended): a `tools/call` request naming a tool absent from the
discovered list yields a structured JSON-RPC error response rather than an
unhandled exception — the thrown `Tool not found` is caught and wrapped as
-32603 `Internal error` with the message in `error.data` — but the response
envelope carries id `null`, not the original request id; the tool function
is never invoked. -/
theorem toolsCall_unknownTool (env : DiscoveryEnv) (now : Int) (freshId : Nat)
    (st : ToolsModuleState) (bodyFields pFields : List (String × Value)) (toolName : String)
    (hv : getField (Value.vObj bodyFields) "jsonrpc" = .vStr "2.0")
    (hm : getField (Value.vObj bodyFields) "method" = .vStr "tools/call")
    (hp : getField (Value.vObj bodyFields) "params" = .vObj pFields)
    (hn : getField (Value.vObj pFields) "name" = .vStr toolName)
    (hne : toolName ≠ "")
    (hnotfound : (discoverTools env false now freshId st).result.tools.find?
      (fun t => nameMatches t (.vStr toolName)) = none) :
    (handleMcpRequest env now freshId st (Value.vObj bodyFields)).response =
      internalErrorResponse ("Tool not found: " ++ toolName) ∧
    (handleMcpRequest env now freshId st (Value.vObj bodyFields)).response.id = .vNull ∧
    responseCode (handleMcpRequest env now freshId st (Value.vObj bodyFields)).response =
      some INTERNAL_ERROR ∧
    (handleMcpRequest env now freshId st (Value.vObj bodyFields)).functionCalls = 0 := by
  have hparse := parse_ok_of_version2 bodyFields hv
  have htr : truthy (Value.vStr toolName) = true := by simp [truthy, bne_iff_ne, hne]
  have hexec : ∀ args, executeToolOptimized (discoverTools env false now freshId st).result.tools
      (.vStr toolName) args =
      { outcome := .error ("Tool not found: " ++ toolName), functionCalls := 0 } := by
    intro args
    simp [executeToolOptimized, hnotfound, jsToString]
  refine ⟨?_, ?_, ?_, ?_⟩ <;>
    simp [handleMcpRequest, hparse, hm, hp, toolsCallHandler, hn, htr, hexec,
      internalErrorResponse, responseCode, createJsonRpcError]

/-- C3 witness: the concrete request naming the unknown tool `nope`, id 3,
against an environment whose only tool is `get_products`. -/
theorem toolsCall_unknownTool_witness :
    (handleMcpRequest mixedEnv 0 0 initialToolsState c3Body).response =
      internalErrorResponse ("Tool not found: " ++ "nope") ∧
    (handleMcpRequest mixedEnv 0 0 initialToolsState c3Body).response.id = .vNull ∧
    responseCode (handleMcpRequest mixedEnv 0 0 initialToolsState c3Body).response =
      some INTERNAL_ERROR ∧
    (handleMcpRequest mixedEnv 0 0 initialToolsState c3Body).functionCalls = 0 :=
  toolsCall_unknownTool mixedEnv 0 0 initialToolsState
    [("jsonrpc", .vStr "2.0"), ("id", .vNum 3), ("method", .vStr "tools/call"),
      ("params", .vObj [("name", .vStr "nope")])]
    [("name", .vStr "nope")] "nope" rfl rfl rfl rfl (by decide) rfl

/-- C3 counterexample: the unknown-tool request with id 3 does get a
structured error response, but its envelope id is `null`, not 3 — refuting
the claim that the original request id is carried. -/
theorem c3_counterexample :
    (handleMcpRequest mixedEnv 0 0 initialToolsState c3Body).response.error.isSome = true ∧
    (handleMcpRequest mixedEnv 0 0 initialToolsState c3Body).response.id = .vNull ∧
    ¬ (handleMcpRequest mixedEnv 0 0 initialToolsState c3Body).response.id = .vNum 3 :=
  ⟨rfl, rfl, fun h => Value.noConfusion h⟩

/-! ## C9 -/

/-- C9 (amended): on a protected path with a non-`OPTIONS` method, the
Express middleware answers 401 for a missing/empty header, 401 for a header
that does not parse as `Bearer <token>`, 500 when no server token is
configured (fail closed), and 401 for a wrong token; the serverless handler
answers 401 — not 500 — whenever authentication fails, including the
unconfigured-token case; with the token unset neither endpoint ever
authorizes a request. -/
theorem auth_behavior (tok : Option String) (req : ExpressReq) (sm : String)
    (shdr : Option String)
    (hpath : ¬ (req.path = "/health" ∨ req.path = "/ready"))
    (hmeth : ¬ req.method = "OPTIONS")
    (hsm : ¬ sm = "OPTIONS") :
    (strFalsy req.authorization = true →
      authMiddleware tok req = .respond 401 "Unauthorized" "Missing Authorization header") ∧
    (∀ h, req.authorization = some h → strFalsy (some h) = false → malformedHeader h = true →
      authMiddleware tok req =
        .respond 401 "Unauthorized" "Invalid Authorization header format. Expected: Bearer <token>") ∧
    (∀ h, req.authorization = some h → strFalsy (some h) = false → malformedHeader h = false →
      strFalsy tok = true →
      authMiddleware tok req =
        .respond 500 "Internal Server Error" "Server authentication not configured") ∧
    (∀ h, req.authorization = some h → strFalsy (some h) = false → malformedHeader h = false →
      strFalsy tok = false → headerToken h ≠ tok →
      authMiddleware tok req = .respond 401 "Unauthorized" "Invalid token") ∧
    (strFalsy tok = true → ¬ authMiddleware tok req = .next) ∧
    (strFalsy tok = true → authenticateRequest tok shdr = false) ∧
    (strFalsy tok = true → serverlessHandlerStatus tok sm shdr = 401) ∧
    (strFalsy shdr = true → serverlessHandlerStatus tok sm shdr = 401) ∧
    (∀ h e, shdr = some h → tok = some e →
      (jsStartsWith h "Bearer " = false ∨ ¬ h.drop 7 = e) →
      serverlessHandlerStatus tok sm shdr = 401) := by
  refine ⟨?_, ?_, ?_, ?_, ?_, ?_, ?_, ?_, ?_⟩
  · intro hmiss
    simp [authMiddleware, hpath, hmeth, hmiss]
  · intro h hh hnf hmal
    simp [authMiddleware, hpath, hmeth, hh, hnf, hmal]
  · intro h hh hnf hmal htok
    simp [authMiddleware, hpath, hmeth, hh, hnf, hmal, htok]
  · intro h hh hnf hmal htok hne
    simp [authMiddleware, hpath, hmeth, hh, hnf, hmal, htok, hne]
  · intro htok hnext
    cases hh : req.authorization with
    | none =>
        rw [authMiddleware] at hnext
        simp [hpath, hmeth, hh, strFalsy] at hnext
    | some h =>
        rw [authMiddleware] at hnext
        by_cases hhf : strFalsy (some h) = true
        · simp [hpath, hmeth, hh, hhf] at hnext
        · by_cases hmal : malformedHeader h = true
          · simp [hpath, hmeth, hh, hhf, hmal] at hnext
          · simp [hpath, hmeth, hh, hhf, hmal, htok] at hnext
  · intro htok
    simp [authenticateRequest, htok]
  · intro htok
    simp [serverlessHandlerStatus, hsm, authenticateRequest, htok]
  · intro hhdr
    by_cases htok : strFalsy tok = true
    · simp [serverlessHandlerStatus, hsm, authenticateRequest, htok]
    · simp [serverlessHandlerStatus, hsm, authenticateRequest, htok, hhdr]
  · intro h e hh he hbad
    have hauth : authenticateRequest tok shdr = false := by
      subst he
      by_cases htf : strFalsy (some e) = true
      · simp [authenticateRequest, htf]
      · rcases hbad with hbad | hbad
        · by_cases hhf : strFalsy shdr = true
          · simp [authenticateRequest, htf, hhf]
          · simp [authenticateRequest, htf, hhf, hh, hbad]
        · by_cases hhf : strFalsy shdr = true
          · simp [authenticateRequest, htf, hhf]
          · by_cases hsw : jsStartsWith h "Bearer " = true
            · simp [authenticateRequest, htf, hhf, hh, hsw, hbad]
            · simp [authenticateRequest, htf, hhf, hh, hsw]
    simp [serverlessHandlerStatus, hsm, hauth]

/-- C9 witness: with no configured token, a well-formed `Bearer` request on a
protected path gets 500 from the Express middleware but 401 from the
serverless handler; with a configured token, a wrong bearer token gets 401
from the middleware. -/
theorem auth_behavior_witness :
    authMiddleware none { path := "/mcp", method := "POST", authorization := some "Bearer x" } =
      .respond 500 "Internal Server Error" "Server authentication not configured" ∧
    serverlessHandlerStatus none "POST" (some "Bearer x") = 401 ∧
    authMiddleware (some "secret")
        { path := "/mcp", method := "POST", authorization := some "Bearer wrong" } =
      .respond 401 "Unauthorized" "Invalid token" := by
  refine ⟨?_, ?_, ?_⟩
  · exact (auth_behavior none
      { path := "/mcp", method := "POST", authorization := some "Bearer x" }
      "POST" (some "Bearer x") (by simp) (by simp) (by simp)).2.2.1
      "Bearer x" rfl rfl rfl rfl
  · exact (auth_behavior none
      { path := "/mcp", method := "POST", authorization := some "Bearer x" }
      "POST" (some "Bearer x") (by simp) (by simp) (by simp)).2.2.2.2.2.2.1 rfl
  · exact (auth_behavior (some "secret")
      { path := "/mcp", method := "POST", authorization := some "Bearer wrong" }
      "POST" (some "Bearer wrong") (by simp) (by simp) (by simp)).2.2.2.1
      "Bearer wrong" rfl rfl rfl rfl (by simp [headerToken, jsSplitSpace, splitCharsOnSpace])

/-- C9 counterexample: a POST to the serverless MCP endpoint with a bearer
header while no token is configured server-side is answered 401, not the 500
the claim requires for every protected MCP endpoint. -/
theorem c9_counterexample :
    serverlessHandlerStatus none "POST" (some "Bearer sometoken") = 401 ∧
    ¬ serverlessHandlerStatus none "POST" (some "Bearer sometoken") = 500 := by
  refine ⟨rfl, by decide⟩

end MedusaMcp
